import Mathlib

set_option maxRecDepth 8000

/-! Shallow embedding of the product-search core of the repository:
`src/backend-core/src/crud/crud_product.py` and
`src/backend-core/src/api/v1/endpoints/search.py`.

Database queries are modelled as pure list operations over an in-memory
catalog (`List Product`): a `SELECT ... WHERE ... ORDER BY ... LIMIT n`
becomes filter / sort / take.  The pgvector `cosine_distance` operator
(irrational in general, and opaque to every property considered here) is
abstracted as a distance-oracle parameter `cos : List ℚ → List ℚ → ℚ`
supplied to each query builder.  SQL result order among rows with equal
sort keys is unspecified; the model fixes it with a deterministic
insertion sort, which is irrelevant to the properties proved below. -/

namespace SearchCore

/-- ASCII lower-casing, matching Python `str.lower` on the ASCII gender
keywords used by this code base (Korean has no letter case). -/
def lowerStr (s : String) : String := String.mk (s.data.map Char.toLower)

def isPrefixList : List Char → List Char → Bool
  | [], _ => true
  | _ :: _, [] => false
  | a :: as, b :: bs => a == b && isPrefixList as bs

def isSubList (pat : List Char) : List Char → Bool
  | [] => pat == []
  | c :: rest => isPrefixList pat (c :: rest) || isSubList pat rest

/-- SQL `ILIKE '%kw%'` as used by `search_smart_hybrid` / `search_keyword`:
case-insensitive substring containment. -/
def ilikeContains (hay kw : String) : Bool :=
  isSubList (lowerStr kw).data (lowerStr hay).data

/-- Python `str.split()` (no argument): split on whitespace runs,
discarding empty pieces.  `cur` is the reversed current word. -/
def splitWsAux : List Char → List Char → List (List Char)
  | [], cur => if cur.isEmpty then [] else [cur.reverse]
  | c :: rest, cur =>
    if c.isWhitespace then
      if cur.isEmpty then splitWsAux rest []
      else cur.reverse :: splitWsAux rest []
    else splitWsAux rest (c :: cur)

def splitWs (s : String) : List String := (splitWsAux s.data []).map String.mk

/-- Python `str.replace(old, "")` for a nonempty `old`: delete every
(left-to-right, non-overlapping) occurrence.  The fuel argument (the
input length) only makes the recursion structural. -/
def removeAllFuel (pat : List Char) : Nat → List Char → List Char
  | 0, l => l
  | _ + 1, [] => []
  | fuel + 1, c :: rest =>
    if isPrefixList pat (c :: rest) then
      removeAllFuel pat fuel (rest.drop (pat.length - 1))
    else c :: removeAllFuel pat fuel rest

/-- Python `s.replace(pat, "")` (all uses in this code delete the
pattern; an empty pattern is the identity, as it never occurs here). -/
def replaceRemove (s pat : String) : String :=
  if pat.data.isEmpty then s
  else String.mk (removeAllFuel pat.data s.data.length s.data)

/-- Python `str.strip()`: drop leading and trailing whitespace. -/
def trimStr (s : String) : String :=
  String.mk (((s.data.dropWhile Char.isWhitespace).reverse.dropWhile
    Char.isWhitespace).reverse)

def strEndsWith (s t : String) : Bool := isPrefixList t.data.reverse s.data.reverse

def strDropRight (s : String) (n : Nat) : String :=
  String.mk (s.data.take (s.data.length - n))

/-- Python `str.upper` on the ASCII strategy labels. -/
def upperStr (s : String) : String := String.mk (s.data.map Char.toUpper)

/-- The persisted `Product` entity (`src/models/product.py` columns that the
search code reads).  Vectors are rational lists; timestamps are naturals. -/
structure Product where
  id : Nat
  name : String
  description : String
  category : String
  gender : Option String
  price : Int
  stock_quantity : Int
  is_active : Bool
  deleted_at : Option Nat
  created_at : Nat
  embedding : Option (List ℚ)
  embedding_clip : Option (List ℚ)
  embedding_clip_upper : Option (List ℚ)
  embedding_clip_lower : Option (List ℚ)
deriving DecidableEq

/-- A returned candidate: a product together with the dynamically attached
`similarity` attribute (None on keyword / recency paths). -/
structure Hit where
  prod : Product
  similarity : Option ℚ
deriving DecidableEq

/-- Insertion step of the deterministic sort used to model `ORDER BY`. -/
def insertByKey (le : α → α → Bool) (a : α) : List α → List α
  | [] => [a]
  | b :: bs => if le a b then a :: b :: bs else b :: insertByKey le a bs

/-- Deterministic sort used to model `ORDER BY` (ties in unspecified, here
insertion, order). -/
def sortByKey (le : α → α → Bool) : List α → List α
  | [] => []
  | a :: as => insertByKey le a (sortByKey le as)

/-- `SELECT p, key(p) AS distance WHERE cond ORDER BY distance ASC LIMIT n`. -/
def runQueryAsc (catalog : List Product) (cond : Product → Bool)
    (key : Product → ℚ) (limit : Nat) : List (Product × ℚ) :=
  (sortByKey (fun a b => decide (a.2 ≤ b.2))
    ((catalog.filter cond).map (fun p => (p, key p)))).take limit

/-- `SELECT p WHERE cond ORDER BY created_at DESC LIMIT n`. -/
def runQueryRecency (catalog : List Product) (cond : Product → Bool)
    (limit : Nat) : List Product :=
  (sortByKey (fun a b => decide (b.created_at ≤ a.created_at))
    (catalog.filter cond)).take limit

/-- Gender filter condition: Python `if filter_gender:` followed by
`or_(gender == G, gender == 'Unisex', gender.is_(None))`.  Python
truthiness makes the empty string impose no condition. -/
def genderCond (filter_gender : Option String) (p : Product) : Bool :=
  match filter_gender with
  | some g => if g = "" then true
      else p.gender == some g || p.gender == some "Unisex" || p.gender.isNone
  | none => true

/-- Python `if min_price: conditions.append(Product.price >= min_price)` —
`0` is falsy, so a zero bound imposes no condition. -/
def minPriceCond (min_price : Option Int) (p : Product) : Bool :=
  match min_price with
  | some m => if m = 0 then true else decide (m ≤ p.price)
  | none => true

/-- Python `if max_price: conditions.append(Product.price <= max_price)`. -/
def maxPriceCond (max_price : Option Int) (p : Product) : Bool :=
  match max_price with
  | some m => if m = 0 then true else decide (p.price ≤ m)
  | none => true

/-- Python `if exclude_category: for cat in exclude_category:
conditions.append(Product.category != cat)`. -/
def excludeCategoryCond (exc : Option (List String)) (p : Product) : Bool :=
  match exc with
  | some l => l.all (fun c => p.category != c)
  | none => true

/-- Python `if exclude_id: conditions.append(Product.id.notin_(exclude_id))`. -/
def excludeIdCond (exc : Option (List Nat)) (p : Product) : Bool :=
  match exc with
  | some l => l.all (fun i => p.id != i)
  | none => true

/-- Python `if include_category: conditions.append(Product.category.in_(include_category))`. -/
def includeCategoryCond (inc : Option (List String)) (p : Product) : Bool :=
  match inc with
  | some l => if l.isEmpty then true else l.contains p.category
  | none => true

/-- Base scalar filters shared by every search path in `search_smart_hybrid`:
active, not soft-deleted, plus the optional gender condition. -/
def baseCond (filter_gender : Option String) (p : Product) : Bool :=
  p.is_active && p.deleted_at.isNone && genderCond filter_gender p

/-- Python `bert_vector and len(bert_vector) == 768`. -/
def validBert (v : Option (List ℚ)) : Bool :=
  match v with
  | some l => !l.isEmpty && l.length == 768
  | none => false

/-- Python `clip_vec and len(clip_vec) == 512`. -/
def validClip (v : Option (List ℚ)) : Bool :=
  match v with
  | some l => !l.isEmpty && l.length == 512
  | none => false

/-- `CRUDProduct._validate_vector`: final vector validation before DB
insert/update.  None / empty → zero vector; short → pad with trailing
zeros; long → truncate. -/
def validate_vector (vector : Option (List ℚ)) (dim : Nat) : List ℚ :=
  match vector with
  | none => List.replicate dim 0
  | some v =>
    if v.isEmpty then List.replicate dim 0
    else if v.length ≠ dim then
      if v.length < dim then v ++ List.replicate (dim - v.length) 0
      else v.take dim
    else v

/-- The vector fields of a `ProductCreate` payload as seen by
`CRUDProduct.create`.  The outer `Option` is key presence in
`create_data` (`"embedding" in create_data`); the inner `Option` is the
value (possibly `None`). -/
structure CreatePayload where
  embedding : Option (Option (List ℚ))
  embedding_clip : Option (Option (List ℚ))
  embedding_clip_upper : Option (Option (List ℚ))
  embedding_clip_lower : Option (Option (List ℚ))
deriving DecidableEq

/-- The vector-normalisation step of `CRUDProduct.create`: each vector key
present in the payload is replaced by its validated value (768 for the
text embedding, 512 for the three CLIP embeddings); absent keys are left
absent. -/
def create_normalize (c : CreatePayload) : CreatePayload :=
  { embedding := c.embedding.map (fun v => some (validate_vector v 768))
    embedding_clip := c.embedding_clip.map (fun v => some (validate_vector v 512))
    embedding_clip_upper := c.embedding_clip_upper.map (fun v => some (validate_vector v 512))
    embedding_clip_lower := c.embedding_clip_lower.map (fun v => some (validate_vector v 512)) }

/-- Rounding to 4 decimal places, modelling Python `round(x, 4)` (ties,
which binary floats essentially never hit exactly, follow Mathlib's
`round`). -/
def round4 (x : ℚ) : ℚ := (round (x * 10000) : ℤ) / 10000

/-- `CRUDProduct._distance_to_similarity`:
`round(max(0.0, min(1.0, 1.0 - distance)), 4)`. -/
def distance_to_similarity (distance : ℚ) : ℚ :=
  round4 (max 0 (min 1 (1 - distance)))

/-- `CRUDProduct._attach_similarity` on a row's optional distance. -/
def attach_similarity (p : Product) (distance : Option ℚ) : Hit :=
  { prod := p, similarity := distance.map distance_to_similarity }

/-- `CRUDProduct.get_multi`: `SELECT * WHERE deleted_at IS NULL OFFSET skip
LIMIT limit` — note: no `is_active` filter and no `ORDER BY`. -/
def get_multi (catalog : List Product) (skip limit : Nat) : List Product :=
  ((catalog.filter (fun p => p.deleted_at.isNone)).drop skip).take limit

/-- `CRUDProduct._extract_keywords` helper: one trailing Korean particle
stripped, per the anchored regex
`(은|는|이|가|을|를|의|에|로|으로|과|와|도|만)$` (the two-character
particle 으로 wins at its position, else a single-character one). -/
def stripParticle (w : String) : String :=
  if strEndsWith w "으로" then strDropRight w 2
  else if ["은","는","이","가","을","를","의","에","로","과","와","도","만"].any
      (fun t => strEndsWith w t) then strDropRight w 1
  else w

def stop_words : List String :=
  ["추천", "해줘", "보여줘", "찾아줘", "알려줘", "어때", "사진", "이미지", "스타일", "패션", "옷"]

/-- `CRUDProduct._extract_keywords`: split on whitespace, strip one
trailing particle, keep words of length ≥ 2 that are not stop words, and
always insert the whitespace-free full query at position 0 when nonempty. -/
def extract_keywords (query : String) : List String :=
  let words := splitWs query
  let keywords := (words.map stripParticle).filter
    (fun w => w ≠ "" && w.data.length ≥ 2 && !stop_words.contains w)
  let full_query := replaceRemove query " "
  if full_query.data.length ≥ 1 then full_query :: keywords else keywords

/-- Keyword match condition of `search_smart_hybrid`:
`or_(name ILIKE %kw%, description ILIKE %kw%, category ILIKE %kw%)`. -/
def kwMatch (p : Product) (kw : String) : Bool :=
  ilikeContains p.name kw || ilikeContains p.description kw || ilikeContains p.category kw

/-- The per-row accumulation of `search_smart_hybrid`:
`if product.id not in seen_ids: attach similarity; append; add id`. -/
def dedupFold (rows : List (Product × Option ℚ)) (acc : List Hit × List Nat) :
    List Hit × List Nat :=
  rows.foldl (fun acc row =>
    if row.1.id ∈ acc.2 then acc
    else (acc.1 ++ [attach_similarity row.1 row.2], acc.2 ++ [row.1.id])) acc

/-- The rows fetched for one keyword candidate in `search_smart_hybrid`
Step 1: vector-ordered when a valid 768-dim BERT vector exists, else
recency-ordered with NULL distance. -/
def keywordRows (catalog : List Product) (cosB : List ℚ → List ℚ → ℚ)
    (bert : Option (List ℚ)) (base : Product → Bool) (kw : String)
    (limit : Nat) : List (Product × Option ℚ) :=
  if validBert bert then
    let bv := bert.getD []
    (runQueryAsc catalog
      (fun p => base p && p.embedding.isSome && kwMatch p kw)
      (fun p => cosB bv (p.embedding.getD [])) limit).map
      (fun x => (x.1, some x.2))
  else
    (runQueryRecency catalog (fun p => base p && kwMatch p kw) limit).map
      (fun p => (p, none))

/-- The keyword loop of `search_smart_hybrid` Step 1: for each extracted
keyword (skipping empty ones), fetch its rows and accumulate unseen
products. -/
def keywordLoop (catalog : List Product) (cosB : List ℚ → List ℚ → ℚ)
    (bert : Option (List ℚ)) (base : Product → Bool) (limit : Nat) :
    List String → List Hit × List Nat → List Hit × List Nat
  | [], acc => acc
  | kw :: rest, acc =>
    if kw.length < 1 then keywordLoop catalog cosB bert base limit rest acc
    else keywordLoop catalog cosB bert base limit rest
      (dedupFold (keywordRows catalog cosB bert base kw limit) acc)

/-- Step 1 of `search_smart_hybrid` (guarded by
`if query and len(query.strip()) >= 1`). -/
def keyword_step (catalog : List Product) (cosB : List ℚ → List ℚ → ℚ)
    (query : String) (bert : Option (List ℚ)) (base : Product → Bool)
    (limit : Nat) : List Hit × List Nat :=
  if query ≠ "" ∧ (trimStr query).data.length ≥ 1 then
    keywordLoop catalog cosB bert base limit (extract_keywords query) ([], [])
  else ([], [])

/-- Step 2 of `search_smart_hybrid`: the BERT vector fallback, reached
only when the keyword step accumulated nothing (`len(final_results) == 0
and bert_vector and len(bert_vector) == 768`), excluding already-seen
ids (`notin_(seen_ids) if seen_ids else True`). -/
def vector_step (catalog : List Product) (cosB : List ℚ → List ℚ → ℚ)
    (bert : Option (List ℚ)) (base : Product → Bool) (limit : Nat)
    (step1 : List Hit × List Nat) : List Hit :=
  if step1.1.isEmpty && validBert bert then
    (dedupFold
      ((runQueryAsc catalog
        (fun p => base p && p.embedding.isSome &&
          (if step1.2.isEmpty then true else decide (p.id ∉ step1.2)))
        (fun p => cosB (bert.getD []) (p.embedding.getD [])) limit).map
        (fun x => (x.1, some x.2)))
      step1).1
  else step1.1

/-- `CRUDProduct.search_smart_hybrid`: keyword step first; if it found
anything, return it as-is (`if keyword_found and len(final_results) > 0`);
otherwise fall back to BERT vector search. -/
def search_smart_hybrid (catalog : List Product) (cosB : List ℚ → List ℚ → ℚ)
    (query : String) (bert_vector clip_vector : Option (List ℚ))
    (limit : Nat) (filter_gender : Option String) : List Hit :=
  if !(keyword_step catalog cosB query bert_vector (baseCond filter_gender)
      limit).1.isEmpty then
    (keyword_step catalog cosB query bert_vector (baseCond filter_gender)
      limit).1
  else
    vector_step catalog cosB bert_vector (baseCond filter_gender) limit
      (keyword_step catalog cosB query bert_vector (baseCond filter_gender)
        limit)

/-- Target-column selection of `search_by_clip_vector`. -/
def targetColumn (target : String) (p : Product) : Option (List ℚ) :=
  if target = "upper" then p.embedding_clip_upper
  else if target = "lower" then p.embedding_clip_lower
  else p.embedding_clip

/-- `CRUDProduct.search_by_clip_vector`. -/
def search_by_clip_vector (catalog : List Product)
    (cosC : List ℚ → List ℚ → ℚ) (clip_vector : List ℚ) (limit : Nat)
    (filter_gender : Option String) (exclude_category : Option (List String))
    (exclude_id : Option (List Nat)) (min_price max_price : Option Int)
    (target : String) (include_category : Option (List String)) : List Hit :=
  if clip_vector.isEmpty || clip_vector.length ≠ 512 then []
  else
    let cond := fun p =>
      p.is_active && p.deleted_at.isNone && (targetColumn target p).isSome &&
      includeCategoryCond include_category p && genderCond filter_gender p &&
      excludeCategoryCond exclude_category p && excludeIdCond exclude_id p &&
      minPriceCond min_price p && maxPriceCond max_price p
    (runQueryAsc catalog cond
      (fun p => cosC clip_vector ((targetColumn target p).getD []))
      limit).map (fun x => attach_similarity x.1 (some x.2))

/-- The shared filter conditions of `search_hybrid`. -/
def hybridCond (filter_gender : Option String) (min_price max_price : Option Int)
    (exclude_category : Option (List String)) (exclude_id : Option (List Nat))
    (p : Product) : Bool :=
  p.is_active && p.deleted_at.isNone && genderCond filter_gender p &&
  minPriceCond min_price p && maxPriceCond max_price p &&
  excludeCategoryCond exclude_category p && excludeIdCond exclude_id p

/-- The BERT branch rows of `search_hybrid` (empty when the vector is
absent or not 768-dimensional). -/
def hybrid_bert_rows (catalog : List Product) (cosB : List ℚ → List ℚ → ℚ)
    (bert : Option (List ℚ)) (base : Product → Bool) (limit : Nat) :
    List (Product × ℚ) :=
  if validBert bert then
    runQueryAsc catalog (fun p => base p && p.embedding.isSome)
      (fun p => cosB (bert.getD []) (p.embedding.getD [])) limit
  else []

/-- The CLIP branch rows of `search_hybrid`. -/
def hybrid_clip_rows (catalog : List Product) (cosC : List ℚ → List ℚ → ℚ)
    (clip : Option (List ℚ)) (base : Product → Bool) (limit : Nat) :
    List (Product × ℚ) :=
  if validClip clip then
    runQueryAsc catalog (fun p => base p && p.embedding_clip.isSome)
      (fun p => cosC (clip.getD []) (p.embedding_clip.getD [])) limit
  else []

/-- `CRUDProduct.search_hybrid`: BERT vector search, else CLIP vector
search, else recency fallback (similarity None). -/
def search_hybrid (catalog : List Product) (cosB cosC : List ℚ → List ℚ → ℚ)
    (bert_vector clip_vector : Option (List ℚ)) (limit : Nat)
    (filter_gender : Option String) (min_price max_price : Option Int)
    (exclude_category : Option (List String)) (exclude_id : Option (List Nat)) :
    List Hit :=
  if !(hybrid_bert_rows catalog cosB bert_vector
      (hybridCond filter_gender min_price max_price exclude_category exclude_id)
      limit).isEmpty then
    (hybrid_bert_rows catalog cosB bert_vector
      (hybridCond filter_gender min_price max_price exclude_category exclude_id)
      limit).map (fun x => attach_similarity x.1 (some x.2))
  else if !(hybrid_clip_rows catalog cosC clip_vector
      (hybridCond filter_gender min_price max_price exclude_category exclude_id)
      limit).isEmpty then
    (hybrid_clip_rows catalog cosC clip_vector
      (hybridCond filter_gender min_price max_price exclude_category exclude_id)
      limit).map (fun x => attach_similarity x.1 (some x.2))
  else
    (runQueryRecency catalog
      (hybridCond filter_gender min_price max_price exclude_category exclude_id)
      limit).map (fun p => { prod := p, similarity := none })

/-! Endpoint layer: `src/backend-core/src/api/v1/endpoints/search.py`. -/

def maleKeywords : List String := ["남자", "남성", "맨", "men", "male", "boy"]

def femaleKeywords : List String := ["여자", "여성", "우먼", "women", "female", "girl"]

/-- `detect_gender_intent`: lower-case the query, check the male keyword
list first (`any(x in q for x in [...])`), then the female list. -/
def detect_gender_intent (query : String) : Option String :=
  if query = "" then none
  else
    let q := lowerStr query
    if maleKeywords.any (fun x => ilikeContains q x) then some "Male"
    else if femaleKeywords.any (fun x => ilikeContains q x) then some "Female"
    else none

def remove_words : List String :=
  ["남자", "여자", "남성", "여성", "남성용", "여성용",
   "추천", "해줘", "보여줘", "찾아줘", "알려줘",
   "스타일", "패션", "의류", "용"]

/-- The anchored particle regex of `extract_core_keyword`:
`(은|는|이|가|을|를|의|에|로)$` (single-character alternatives only). -/
def stripParticleCore (w : String) : String :=
  if ["은","는","이","가","을","를","의","에","로"].any (fun t => strEndsWith w t)
  then strDropRight w 1 else w

/-- `extract_core_keyword`: delete each removal word everywhere (in list
order), strip one trailing particle from the trimmed result, and fall
back to the original query when the result trims to empty. -/
def extract_core_keyword (query : String) : String :=
  if query = "" then ""
  else
    let r := remove_words.foldl (fun s w => replaceRemove s w) query
    let r := stripParticleCore (trimStr r)
    if trimStr r = "" then query else trimStr r

/-- Outcome of one successful AI-service round trip inside `ai_search`'s
retry loop (path decision plus extracted vectors and strategy label). -/
structure AIResult where
  path : String
  bert : Option (List ℚ)
  clip : Option (List ℚ)
  strategy : Option String
deriving DecidableEq

/-- The `max_retries = 3` loop of `ai_search`: attempts 0, 1, 2 until the
first success; returns the outcome and the number of attempts made. -/
def retryLoop (ai : Nat → Option AIResult) : Option AIResult × Nat :=
  match ai 0 with
  | some r => (some r, 1)
  | none =>
    match ai 1 with
    | some r => (some r, 2)
    | none =>
      match ai 2 with
      | some r => (some r, 3)
      | none => (none, 3)

/-- The response of `ai_search` (fields the search logic populates; the
JSON key `search_path` carries the `search_strategy` label, mirroring the
code). -/
structure SearchResponse where
  status : String
  search_path : String
  gender_filter_applied : Bool
  detected_gender : Option String
  products : List Hit
deriving DecidableEq

/-- The `/ai-search` endpoint logic (`ai_search` in `search.py`): intent
extraction, AI retry loop, then Case A (external CLIP visual search, with
BERT fallback), Case B (smart hybrid on the core keyword, then the
gender-relaxed retry on the original query), Case C (recency fallback via
`get_multi`).  A database failure surfaces as an error; AI-service
failures are absorbed by the retry loop. -/
def ai_path (aiOpt : Option AIResult) : String :=
  match aiOpt with | some r => r.path | none => "INTERNAL"

def ai_strategy0 (aiOpt : Option AIResult) : String :=
  match aiOpt with
  | some r => upperStr (r.strategy.getD r.path)
  | none => "KEYWORD_FALLBACK"

/-- Case A of `ai_search`: EXTERNAL path with a valid 512-dim CLIP vector
runs the visual search, with a BERT `search_hybrid` fallback when empty. -/
def ai_caseA (catalog : List Product) (cosB cosC : List ℚ → List ℚ → ℚ)
    (target_gender : Option String) (limit : Nat) (search_path : String)
    (bert_vec clip_vec : Option (List ℚ)) (strategy0 : String) :
    List Hit × String :=
  if search_path = "EXTERNAL" && validClip clip_vec then
    if !(search_by_clip_vector catalog cosC (clip_vec.getD []) limit
        target_gender none none none none "full" none).isEmpty then
      (search_by_clip_vector catalog cosC (clip_vec.getD []) limit
        target_gender none none none none "full" none, "CLIP_VISUAL_SEARCH")
    else if validBert bert_vec then
      (search_hybrid catalog cosB cosC bert_vec none limit target_gender
        none none none none, "BERT_FALLBACK")
    else ([], strategy0)
  else ([], strategy0)

/-- Case B of `ai_search`: the smart hybrid on the core keyword, then
the gender-relaxed retry on the original query (tracked by the third
component, `gender_filtered`). -/
def ai_caseB (catalog : List Product) (cosB : List ℚ → List ℚ → ℚ)
    (query core_keyword : String) (bert_vec clip_vec : Option (List ℚ))
    (limit : Nat) (target_gender : Option String)
    (stepA : List Hit × String) : List Hit × String × Bool :=
  if stepA.1.isEmpty then
    if (search_smart_hybrid catalog cosB core_keyword bert_vec clip_vec
        limit target_gender).isEmpty then
      if !(search_smart_hybrid catalog cosB query bert_vec clip_vec limit
          none).isEmpty then
        (search_smart_hybrid catalog cosB query bert_vec clip_vec limit none,
         "RELAXED_SEARCH", false)
      else ([], stepA.2, true)
    else
      (search_smart_hybrid catalog cosB core_keyword bert_vec clip_vec limit
        target_gender, stepA.2, true)
  else (stepA.1, stepA.2, true)

/-- Case C of `ai_search`: the `get_multi` recency fallback. -/
def ai_caseC (catalog : List Product) (limit : Nat)
    (stepB : List Hit × String × Bool) : List Hit × String × Bool :=
  if stepB.1.isEmpty then
    ((get_multi catalog 0 limit).map (fun p => { prod := p, similarity := none }),
     "FALLBACK_LATEST", false)
  else stepB

def ai_search (catalog : List Product) (cosB cosC : List ℚ → List ℚ → ℚ)
    (query : String) (limit : Nat) (ai : Nat → Option AIResult)
    (dbOk : Bool) : Except String SearchResponse :=
  if !dbOk then Except.error "Database Search Failed"
  else
    let stepC := ai_caseC catalog limit
      (ai_caseB catalog cosB query (extract_core_keyword query)
        ((retryLoop ai).1.bind (fun r => r.bert))
        ((retryLoop ai).1.bind (fun r => r.clip))
        limit (detect_gender_intent query)
        (ai_caseA catalog cosB cosC (detect_gender_intent query) limit
          (ai_path (retryLoop ai).1)
          ((retryLoop ai).1.bind (fun r => r.bert))
          ((retryLoop ai).1.bind (fun r => r.clip))
          (ai_strategy0 (retryLoop ai).1)))
    Except.ok
      { status := "SUCCESS"
        search_path := stepC.2.1
        gender_filter_applied := stepC.2.2
        detected_gender := detect_gender_intent query
        products := stepC.1 }

/-- Pairwise id-distinctness of a product list (primary-key invariant). -/
def IdsNodup (l : List Product) : Prop := l.Pairwise (fun a b => a.id ≠ b.id)

/-- The loop invariant of the `seen_ids` deduplication. -/
def DFInv (acc : List Hit × List Nat) : Prop :=
  (acc.1.map (fun h => h.prod.id)).Nodup ∧ ∀ h ∈ acc.1, h.prod.id ∈ acc.2

/-! Concrete fixtures used to evaluate the model on specific inputs. -/

/-- A default product record; fixtures override individual fields. -/
def baseProduct : Product where
  id := 0
  name := ""
  description := ""
  category := ""
  gender := none
  price := 1000
  stock_quantity := 1
  is_active := true
  deleted_at := none
  created_at := 0
  embedding := none
  embedding_clip := none
  embedding_clip_upper := none
  embedding_clip_lower := none

/-- A trivial distance oracle (all distances 0). -/
def cos0 : List ℚ → List ℚ → ℚ := fun _ _ => 0

def C1clip : Product :=
  { baseProduct with
    id := 1
    name := "바지"
    category := "Bottoms"
    created_at := 10
    embedding_clip := some (List.replicate 512 0) }

def C1kw : Product :=
  { baseProduct with
    id := 2
    name := "셔츠"
    category := "Tops"
    created_at := 5 }

/-- An AI-service oracle whose first attempt succeeds with the EXTERNAL
path and a valid 512-dim CLIP vector, no BERT vector. -/
def C1ai : Nat → Option AIResult := fun _ =>
  some { path := "EXTERNAL"
         bert := none
         clip := some (List.replicate 512 1)
         strategy := none }

def C3blackPants : Product :=
  { baseProduct with
    id := 1
    name := "블랙 팬츠"
    category := "Bottoms"
    created_at := 10 }

def C3hoodTee : Product :=
  { baseProduct with
    id := 2
    name := "후드 티"
    category := "Tops"
    created_at := 5 }

def C3shirt : Product :=
  { baseProduct with
    id := 3
    name := "셔츠"
    category := "Tops"
    created_at := 4 }

def C4inactive : Product :=
  { baseProduct with
    id := 9
    name := "신발"
    category := "Shoes"
    is_active := false
    created_at := 7 }

def C4old : Product :=
  { baseProduct with
    id := 11
    name := "a"
    category := "Tops"
    created_at := 1 }

def C4new : Product :=
  { baseProduct with
    id := 12
    name := "b"
    category := "Tops"
    created_at := 2 }

def C6payload : CreatePayload where
  embedding := some (some [(5 : ℚ)])
  embedding_clip := none
  embedding_clip_upper := none
  embedding_clip_lower := none

def C7male : Product :=
  { baseProduct with
    id := 1
    name := "셔츠"
    category := "Tops"
    gender := some "Male"
    created_at := 10 }

def C7female : Product :=
  { baseProduct with
    id := 2
    name := "셔츠"
    category := "Tops"
    gender := some "Female"
    created_at := 5 }

def C8a : Product :=
  { baseProduct with
    id := 1
    name := "셔츠"
    category := "Tops"
    created_at := 10 }

def C8b : Product :=
  { baseProduct with
    id := 2
    name := "셔츠 드레스"
    category := "Dresses"
    created_at := 5 }

def C9prod : Product :=
  { baseProduct with
    id := 4
    name := "코트"
    category := "Outerwear"
    created_at := 3 }

/-! Lemma toolkit: permutation facts for the `ORDER BY` model, membership
and distinctness facts for the query executors and the dedup fold. -/

theorem insertByKey_perm (le : α → α → Bool) (a : α) (l : List α) :
    (insertByKey le a l).Perm (a :: l) := by
  induction l with
  | nil => simp [insertByKey]
  | cons b bs ih =>
    simp only [insertByKey]
    by_cases h : le a b = true
    · simp [h]
    · simp only [h, if_false]
      exact (ih.cons b).trans (List.Perm.swap a b bs)

theorem sortByKey_perm (le : α → α → Bool) (l : List α) :
    (sortByKey le l).Perm l := by
  induction l with
  | nil => simp [sortByKey]
  | cons a as ih =>
    exact (insertByKey_perm le a (sortByKey le as)).trans (ih.cons a)

theorem mem_sortByKey {le : α → α → Bool} {l : List α} {x : α} :
    x ∈ sortByKey le l ↔ x ∈ l :=
  (sortByKey_perm le l).mem_iff

theorem pairwise_sortByKey {R : α → α → Prop} (hsym : ∀ a b, R a b → R b a)
    (le : α → α → Bool) {l : List α} (h : l.Pairwise R) :
    (sortByKey le l).Pairwise R :=
  (List.Perm.pairwise_iff (fun {a b} hab => hsym a b hab)
    (sortByKey_perm le l)).mpr h

theorem mem_runQueryAsc {catalog : List Product} {cond : Product → Bool}
    {key : Product → ℚ} {limit : Nat} {x : Product × ℚ}
    (h : x ∈ runQueryAsc catalog cond key limit) :
    x.1 ∈ catalog ∧ cond x.1 = true := by
  have h1 := List.take_subset _ _ h
  have h2 := mem_sortByKey.mp h1
  obtain ⟨p, hp, hpe⟩ := List.mem_map.mp h2
  obtain ⟨hpc, hpcond⟩ := List.mem_filter.mp hp
  subst hpe
  exact ⟨hpc, hpcond⟩

theorem mem_runQueryRecency {catalog : List Product} {cond : Product → Bool}
    {limit : Nat} {p : Product}
    (h : p ∈ runQueryRecency catalog cond limit) :
    p ∈ catalog ∧ cond p = true := by
  have h1 := List.take_subset _ _ h
  have h2 := mem_sortByKey.mp h1
  exact ⟨(List.mem_filter.mp h2).1, (List.mem_filter.mp h2).2⟩

theorem runQueryAsc_pairwise {catalog : List Product} {cond : Product → Bool}
    {key : Product → ℚ} {limit : Nat} (h : IdsNodup catalog) :
    (runQueryAsc catalog cond key limit).Pairwise
      (fun a b => a.1.id ≠ b.1.id) := by
  have h1 : (catalog.filter cond).Pairwise (fun a b => a.id ≠ b.id) :=
    h.sublist (List.filter_sublist catalog)
  have h2 : ((catalog.filter cond).map (fun p => (p, key p))).Pairwise
      (fun a b => a.1.id ≠ b.1.id) := List.pairwise_map.mpr h1
  have h3 : (sortByKey (fun a b => decide (a.2 ≤ b.2))
      ((catalog.filter cond).map (fun p => (p, key p)))).Pairwise
      (fun a b => a.1.id ≠ b.1.id) :=
    pairwise_sortByKey (fun _ _ hab hba => hab hba.symm) _ h2
  exact h3.sublist (List.take_sublist _ _)

theorem runQueryRecency_pairwise {catalog : List Product}
    {cond : Product → Bool} {limit : Nat} (h : IdsNodup catalog) :
    IdsNodup (runQueryRecency catalog cond limit) := by
  have h1 : (catalog.filter cond).Pairwise (fun a b => a.id ≠ b.id) :=
    h.sublist (List.filter_sublist catalog)
  have h3 : (sortByKey (fun a b => decide (b.created_at ≤ a.created_at))
      (catalog.filter cond)).Pairwise (fun a b => a.id ≠ b.id) :=
    pairwise_sortByKey (fun _ _ hab hba => hab hba.symm) _ h1
  exact h3.sublist (List.take_sublist _ _)

theorem dedupFold_mem {rows : List (Product × Option ℚ)}
    {acc : List Hit × List Nat} {x : Hit}
    (h : x ∈ (dedupFold rows acc).1) :
    x ∈ acc.1 ∨ ∃ r ∈ rows, x = attach_similarity r.1 r.2 := by
  induction rows generalizing acc with
  | nil => exact Or.inl h
  | cons r rest ih =>
    simp only [dedupFold, List.foldl_cons] at h
    by_cases hid : r.1.id ∈ acc.2
    · simp only [hid, if_pos] at h
      rcases ih h with h' | ⟨r', hr', he⟩
      · exact Or.inl h'
      · exact Or.inr ⟨r', List.mem_cons_of_mem _ hr', he⟩
    · simp only [hid, if_neg, if_false] at h
      rcases ih h with h' | ⟨r', hr', he⟩
      · rcases List.mem_append.mp h' with h'' | h''
        · exact Or.inl h''
        · exact Or.inr ⟨r, List.mem_cons_self _ _, (List.mem_singleton.mp h'')⟩
      · exact Or.inr ⟨r', List.mem_cons_of_mem _ hr', he⟩

theorem dedupFold_inv {rows : List (Product × Option ℚ)}
    {acc : List Hit × List Nat} (h : DFInv acc) :
    DFInv (dedupFold rows acc) := by
  induction rows generalizing acc with
  | nil => exact h
  | cons r rest ih =>
    simp only [dedupFold, List.foldl_cons]
    by_cases hid : r.1.id ∈ acc.2
    · simp only [hid, if_pos]
      exact ih h
    · simp only [hid, if_neg, if_false]
      apply ih
      constructor
      · rw [List.map_append, List.nodup_append]
        refine ⟨h.1, by simp [attach_similarity], ?_⟩
        intro a ha
        simp only [List.map_cons, List.map_nil, attach_similarity] at *
        obtain ⟨hh, hhm, hhe⟩ := List.mem_map.mp ha
        intro hb
        rcases List.mem_singleton.mp hb with rfl
        exact hid (hhe ▸ h.2 hh hhm)
      · intro x hx
        rcases List.mem_append.mp hx with hx' | hx'
        · exact List.mem_append.mpr (Or.inl (h.2 x hx'))
        · rcases List.mem_singleton.mp hx' with rfl
          simp [attach_similarity]

theorem keywordRows_mem {catalog : List Product}
    {cosB : List ℚ → List ℚ → ℚ} {bert : Option (List ℚ)}
    {base : Product → Bool} {kw : String} {limit : Nat}
    {r : Product × Option ℚ}
    (h : r ∈ keywordRows catalog cosB bert base kw limit) :
    r.1 ∈ catalog ∧ base r.1 = true ∧ kwMatch r.1 kw = true := by
  simp only [keywordRows] at h
  by_cases hb : validBert bert = true
  · simp only [hb, if_pos] at h
    obtain ⟨x, hx, hxe⟩ := List.mem_map.mp h
    obtain ⟨hc, hcond⟩ := mem_runQueryAsc hx
    subst hxe
    simp only [Bool.and_eq_true] at hcond
    exact ⟨hc, hcond.1.1, hcond.2⟩
  · simp only [hb, if_neg, if_false] at h
    obtain ⟨p, hp, hpe⟩ := List.mem_map.mp h
    obtain ⟨hc, hcond⟩ := mem_runQueryRecency hp
    subst hpe
    simp only [Bool.and_eq_true] at hcond
    exact ⟨hc, hcond.1, hcond.2⟩

theorem keywordLoop_mem {catalog : List Product}
    {cosB : List ℚ → List ℚ → ℚ} {bert : Option (List ℚ)}
    {base : Product → Bool} {limit : Nat} {kws : List String}
    {acc : List Hit × List Nat} {x : Hit}
    (h : x ∈ (keywordLoop catalog cosB bert base limit kws acc).1) :
    x ∈ acc.1 ∨ (x.prod ∈ catalog ∧ base x.prod = true ∧
      ∃ kw ∈ kws, kwMatch x.prod kw = true) := by
  induction kws generalizing acc with
  | nil => exact Or.inl h
  | cons kw rest ih =>
    simp only [keywordLoop] at h
    by_cases hk : kw.length < 1
    · simp only [hk, if_pos] at h
      rcases ih h with h' | ⟨hc, hb, kw', hkw', hm⟩
      · exact Or.inl h'
      · exact Or.inr ⟨hc, hb, kw', List.mem_cons_of_mem _ hkw', hm⟩
    · simp only [hk, if_neg, if_false] at h
      rcases ih h with h' | ⟨hc, hb, kw', hkw', hm⟩
      · rcases dedupFold_mem h' with h'' | ⟨r, hr, he⟩
        · exact Or.inl h''
        · obtain ⟨hc, hb, hm⟩ := keywordRows_mem hr
          subst he
          exact Or.inr ⟨hc, hb, kw, List.mem_cons_self _ _, hm⟩
      · exact Or.inr ⟨hc, hb, kw', List.mem_cons_of_mem _ hkw', hm⟩

theorem keywordLoop_inv {catalog : List Product}
    {cosB : List ℚ → List ℚ → ℚ} {bert : Option (List ℚ)}
    {base : Product → Bool} {limit : Nat} {kws : List String}
    {acc : List Hit × List Nat} (h : DFInv acc) :
    DFInv (keywordLoop catalog cosB bert base limit kws acc) := by
  induction kws generalizing acc with
  | nil => exact h
  | cons kw rest ih =>
    simp only [keywordLoop]
    by_cases hk : kw.length < 1
    · simp only [hk, if_pos]
      exact ih h
    · simp only [hk, if_neg, if_false]
      exact ih (dedupFold_inv h)

theorem keyword_step_mem {catalog : List Product}
    {cosB : List ℚ → List ℚ → ℚ} {query : String} {bert : Option (List ℚ)}
    {base : Product → Bool} {limit : Nat} {x : Hit}
    (h : x ∈ (keyword_step catalog cosB query bert base limit).1) :
    x.prod ∈ catalog ∧ base x.prod = true ∧
      ∃ kw ∈ extract_keywords query, kwMatch x.prod kw = true := by
  simp only [keyword_step] at h
  by_cases hq : query ≠ "" ∧ (trimStr query).data.length ≥ 1
  · rw [if_pos hq] at h
    rcases keywordLoop_mem h with h' | h'
    · simp at h'
    · exact h'
  · rw [if_neg hq] at h
    simp at h

theorem keyword_step_inv (catalog : List Product)
    (cosB : List ℚ → List ℚ → ℚ) (query : String) (bert : Option (List ℚ))
    (base : Product → Bool) (limit : Nat) :
    DFInv (keyword_step catalog cosB query bert base limit) := by
  simp only [keyword_step]
  by_cases hq : query ≠ "" ∧ (trimStr query).data.length ≥ 1
  · rw [if_pos hq]
    exact keywordLoop_inv ⟨by simp, by simp⟩
  · rw [if_neg hq]
    exact ⟨by simp, by simp⟩

theorem search_smart_hybrid_mem {catalog : List Product}
    {cosB : List ℚ → List ℚ → ℚ} {query : String}
    {bert_vector clip_vector : Option (List ℚ)} {limit : Nat}
    {filter_gender : Option String} {x : Hit}
    (h : x ∈ search_smart_hybrid catalog cosB query bert_vector clip_vector
      limit filter_gender) :
    x.prod ∈ catalog ∧ baseCond filter_gender x.prod = true := by
  have hvmem : ∀ step1 : List Hit × List Nat,
      (∀ y : Hit, y ∈ step1.1 → y.prod ∈ catalog ∧
        baseCond filter_gender y.prod = true) →
      x ∈ vector_step catalog cosB bert_vector (baseCond filter_gender)
        limit step1 →
      x.prod ∈ catalog ∧ baseCond filter_gender x.prod = true := by
    intro step1 hstep hx
    simp only [vector_step] at hx
    by_cases h2 : (step1.1.isEmpty && validBert bert_vector) = true
    · rw [if_pos h2] at hx
      rcases dedupFold_mem hx with h' | ⟨r, hr, he⟩
      · exact hstep x h'
      · obtain ⟨y, hy, hye⟩ := List.mem_map.mp hr
        obtain ⟨hc, hcond⟩ := mem_runQueryAsc hy
        subst he; subst hye
        simp only [Bool.and_eq_true] at hcond
        exact ⟨hc, hcond.1.1⟩
    · rw [if_neg h2] at hx
      exact hstep x hx
  simp only [search_smart_hybrid] at h
  by_cases h1 : (!(keyword_step catalog cosB query bert_vector
      (baseCond filter_gender) limit).1.isEmpty) = true
  · rw [if_pos h1] at h
    obtain ⟨hc, hb, _⟩ := keyword_step_mem h
    exact ⟨hc, hb⟩
  · rw [if_neg h1] at h
    exact hvmem _ (fun y hy => ⟨(keyword_step_mem hy).1,
      (keyword_step_mem hy).2.1⟩) h

theorem search_smart_hybrid_nodup (catalog : List Product)
    (cosB : List ℚ → List ℚ → ℚ) (query : String)
    (bert_vector clip_vector : Option (List ℚ)) (limit : Nat)
    (filter_gender : Option String) :
    ((search_smart_hybrid catalog cosB query bert_vector clip_vector limit
      filter_gender).map (fun h => h.prod.id)).Nodup := by
  have hinv : DFInv (keyword_step catalog cosB query bert_vector
      (baseCond filter_gender) limit) := keyword_step_inv _ _ _ _ _ _
  have hvec : ∀ step1 : List Hit × List Nat, DFInv step1 →
      ((vector_step catalog cosB bert_vector (baseCond filter_gender) limit
        step1).map (fun h => h.prod.id)).Nodup := by
    intro step1 hstep
    simp only [vector_step]
    by_cases h2 : (step1.1.isEmpty && validBert bert_vector) = true
    · rw [if_pos h2]
      exact (dedupFold_inv hstep).1
    · rw [if_neg h2]
      exact hstep.1
  simp only [search_smart_hybrid]
  by_cases h1 : (!(keyword_step catalog cosB query bert_vector
      (baseCond filter_gender) limit).1.isEmpty) = true
  · rw [if_pos h1]
    exact hinv.1
  · rw [if_neg h1]
    exact hvec _ hinv

theorem search_by_clip_vector_mem {catalog : List Product}
    {cosC : List ℚ → List ℚ → ℚ} {clip_vector : List ℚ} {limit : Nat}
    {filter_gender : Option String} {exclude_category : Option (List String)}
    {exclude_id : Option (List Nat)} {min_price max_price : Option Int}
    {target : String} {include_category : Option (List String)} {x : Hit}
    (h : x ∈ search_by_clip_vector catalog cosC clip_vector limit
      filter_gender exclude_category exclude_id min_price max_price target
      include_category) :
    x.prod ∈ catalog ∧ x.prod.is_active = true ∧
      x.prod.deleted_at = none ∧ genderCond filter_gender x.prod = true := by
  simp only [search_by_clip_vector] at h
  by_cases hv : (clip_vector.isEmpty || clip_vector.length ≠ 512) = true
  · rw [if_pos hv] at h
    simp at h
  · rw [if_neg hv] at h
    obtain ⟨y, hy, hye⟩ := List.mem_map.mp h
    obtain ⟨hc, hcond⟩ := mem_runQueryAsc hy
    subst hye
    simp only [Bool.and_eq_true] at hcond
    refine ⟨hc, hcond.1.1.1.1.1.1.1.1, ?_, hcond.1.1.1.1.2⟩
    have := hcond.1.1.1.1.1.1.1.2
    simpa [Option.isNone_iff_eq_none] using this

theorem search_by_clip_vector_nodup (catalog : List Product)
    (cosC : List ℚ → List ℚ → ℚ) (clip_vector : List ℚ) (limit : Nat)
    (filter_gender : Option String) (exclude_category : Option (List String))
    (exclude_id : Option (List Nat)) (min_price max_price : Option Int)
    (target : String) (include_category : Option (List String))
    (hcat : IdsNodup catalog) :
    ((search_by_clip_vector catalog cosC clip_vector limit filter_gender
      exclude_category exclude_id min_price max_price target
      include_category).map (fun h => h.prod.id)).Nodup := by
  simp only [search_by_clip_vector]
  by_cases hv : (clip_vector.isEmpty || clip_vector.length ≠ 512) = true
  · rw [if_pos hv]; simp
  · rw [if_neg hv]
    have h1 : (runQueryAsc catalog
        (fun p =>
          p.is_active && p.deleted_at.isNone && (targetColumn target p).isSome &&
          includeCategoryCond include_category p && genderCond filter_gender p &&
          excludeCategoryCond exclude_category p && excludeIdCond exclude_id p &&
          minPriceCond min_price p && maxPriceCond max_price p)
        (fun p => cosC clip_vector ((targetColumn target p).getD []))
        limit).Pairwise (fun a b => a.1.id ≠ b.1.id) :=
      runQueryAsc_pairwise hcat
    rw [List.map_map]
    exact List.pairwise_map.mpr h1

theorem search_hybrid_mem {catalog : List Product}
    {cosB cosC : List ℚ → List ℚ → ℚ} {bert_vector clip_vector : Option (List ℚ)}
    {limit : Nat} {filter_gender : Option String} {min_price max_price : Option Int}
    {exclude_category : Option (List String)} {exclude_id : Option (List Nat)}
    {x : Hit}
    (h : x ∈ search_hybrid catalog cosB cosC bert_vector clip_vector limit
      filter_gender min_price max_price exclude_category exclude_id) :
    x.prod ∈ catalog ∧ hybridCond filter_gender min_price max_price
      exclude_category exclude_id x.prod = true := by
  have hbrows : ∀ y : Product × ℚ, ∀ b,
      y ∈ hybrid_bert_rows catalog cosB b
        (hybridCond filter_gender min_price max_price exclude_category
          exclude_id) limit →
      y.1 ∈ catalog ∧ hybridCond filter_gender min_price max_price
        exclude_category exclude_id y.1 = true := by
    intro y b hy
    simp only [hybrid_bert_rows] at hy
    by_cases hb : validBert b = true
    · rw [if_pos hb] at hy
      obtain ⟨hc, hcond⟩ := mem_runQueryAsc hy
      simp only [Bool.and_eq_true] at hcond
      exact ⟨hc, hcond.1⟩
    · rw [if_neg hb] at hy
      simp at hy
  have hcrows : ∀ y : Product × ℚ, ∀ c,
      y ∈ hybrid_clip_rows catalog cosC c
        (hybridCond filter_gender min_price max_price exclude_category
          exclude_id) limit →
      y.1 ∈ catalog ∧ hybridCond filter_gender min_price max_price
        exclude_category exclude_id y.1 = true := by
    intro y c hy
    simp only [hybrid_clip_rows] at hy
    by_cases hc : validClip c = true
    · rw [if_pos hc] at hy
      obtain ⟨hm, hcond⟩ := mem_runQueryAsc hy
      simp only [Bool.and_eq_true] at hcond
      exact ⟨hm, hcond.1⟩
    · rw [if_neg hc] at hy
      simp at hy
  simp only [search_hybrid] at h
  by_cases h1 : (!(hybrid_bert_rows catalog cosB bert_vector
      (hybridCond filter_gender min_price max_price exclude_category
        exclude_id) limit).isEmpty) = true
  · rw [if_pos h1] at h
    obtain ⟨y, hy, hye⟩ := List.mem_map.mp h
    obtain ⟨hc, hcond⟩ := hbrows y bert_vector hy
    subst hye
    exact ⟨hc, hcond⟩
  · rw [if_neg h1] at h
    by_cases h2 : (!(hybrid_clip_rows catalog cosC clip_vector
        (hybridCond filter_gender min_price max_price exclude_category
          exclude_id) limit).isEmpty) = true
    · rw [if_pos h2] at h
      obtain ⟨y, hy, hye⟩ := List.mem_map.mp h
      obtain ⟨hc, hcond⟩ := hcrows y clip_vector hy
      subst hye
      exact ⟨hc, hcond⟩
    · rw [if_neg h2] at h
      obtain ⟨p, hp, hpe⟩ := List.mem_map.mp h
      obtain ⟨hc, hcond⟩ := mem_runQueryRecency hp
      subst hpe
      exact ⟨hc, hcond⟩

theorem search_hybrid_nodup (catalog : List Product)
    (cosB cosC : List ℚ → List ℚ → ℚ) (bert_vector clip_vector : Option (List ℚ))
    (limit : Nat) (filter_gender : Option String) (min_price max_price : Option Int)
    (exclude_category : Option (List String)) (exclude_id : Option (List Nat))
    (hcat : IdsNodup catalog) :
    ((search_hybrid catalog cosB cosC bert_vector clip_vector limit
      filter_gender min_price max_price exclude_category exclude_id).map
      (fun h => h.prod.id)).Nodup := by
  have hrows : ∀ rows : List (Product × ℚ),
      rows.Pairwise (fun a b => a.1.id ≠ b.1.id) →
      ((rows.map (fun x => attach_similarity x.1 (some x.2))).map
        (fun h => h.prod.id)).Nodup := by
    intro rows hrows
    rw [List.map_map]
    exact List.pairwise_map.mpr hrows
  have hbert : (hybrid_bert_rows catalog cosB bert_vector
      (hybridCond filter_gender min_price max_price exclude_category
        exclude_id) limit).Pairwise (fun a b => a.1.id ≠ b.1.id) := by
    simp only [hybrid_bert_rows]
    by_cases hb : validBert bert_vector = true
    · rw [if_pos hb]; exact runQueryAsc_pairwise hcat
    · rw [if_neg hb]; simp
  have hclip : (hybrid_clip_rows catalog cosC clip_vector
      (hybridCond filter_gender min_price max_price exclude_category
        exclude_id) limit).Pairwise (fun a b => a.1.id ≠ b.1.id) := by
    simp only [hybrid_clip_rows]
    by_cases hc : validClip clip_vector = true
    · rw [if_pos hc]; exact runQueryAsc_pairwise hcat
    · rw [if_neg hc]; simp
  simp only [search_hybrid]
  by_cases h1 : (!(hybrid_bert_rows catalog cosB bert_vector
      (hybridCond filter_gender min_price max_price exclude_category
        exclude_id) limit).isEmpty) = true
  · rw [if_pos h1]
    exact hrows _ hbert
  · rw [if_neg h1]
    by_cases h2 : (!(hybrid_clip_rows catalog cosC clip_vector
        (hybridCond filter_gender min_price max_price exclude_category
          exclude_id) limit).isEmpty) = true
    · rw [if_pos h2]
      exact hrows _ hclip
    · rw [if_neg h2]
      rw [List.map_map]
      exact List.pairwise_map.mpr (runQueryRecency_pairwise hcat)

theorem get_multi_mem {catalog : List Product} {skip limit : Nat}
    {p : Product} (h : p ∈ get_multi catalog skip limit) :
    p ∈ catalog ∧ p.deleted_at = none := by
  simp only [get_multi] at h
  have h1 := List.take_subset _ _ h
  have h2 := List.drop_subset _ _ h1
  obtain ⟨hc, hcond⟩ := List.mem_filter.mp h2
  exact ⟨hc, by simpa [Option.isNone_iff_eq_none] using hcond⟩

theorem get_multi_pairwise {catalog : List Product} {skip limit : Nat}
    (hcat : IdsNodup catalog) : IdsNodup (get_multi catalog skip limit) :=
  ((hcat.sublist (List.filter_sublist catalog)).sublist
    (List.drop_sublist _ _)).sublist (List.take_sublist _ _)

/-- The gender filter values the endpoint can derive. -/
theorem detect_gender_intent_cases (query : String) :
    detect_gender_intent query = none ∨
    detect_gender_intent query = some "Male" ∨
    detect_gender_intent query = some "Female" := by
  simp only [detect_gender_intent]
  by_cases h0 : query = ""
  · rw [if_pos h0]; exact Or.inl rfl
  · rw [if_neg h0]
    by_cases h1 : maleKeywords.any (fun x => ilikeContains (lowerStr query) x) = true
    · rw [if_pos h1]; exact Or.inr (Or.inl rfl)
    · rw [if_neg h1]
      by_cases h2 : femaleKeywords.any (fun x => ilikeContains (lowerStr query) x) = true
      · rw [if_pos h2]; exact Or.inr (Or.inr rfl)
      · rw [if_neg h2]; exact Or.inl rfl

theorem genderCond_mem {g : String} (hg : g ≠ "") {p : Product}
    (h : genderCond (some g) p = true) :
    p.gender = some g ∨ p.gender = some "Unisex" ∨ p.gender = none := by
  simp only [genderCond] at h
  rw [if_neg hg] at h
  simp only [Bool.or_eq_true, beq_iff_eq, Option.isNone_iff_eq_none] at h
  tauto

theorem hybridCond_gender {filter_gender : Option String}
    {min_price max_price : Option Int} {exclude_category : Option (List String)}
    {exclude_id : Option (List Nat)} {p : Product}
    (h : hybridCond filter_gender min_price max_price exclude_category
      exclude_id p = true) : genderCond filter_gender p = true := by
  simp only [hybridCond, Bool.and_eq_true] at h
  exact h.1.1.1.1.2

theorem ai_caseA_gender {catalog : List Product}
    {cosB cosC : List ℚ → List ℚ → ℚ} {target_gender : Option String}
    {limit : Nat} {search_path : String} {bert_vec clip_vec : Option (List ℚ)}
    {strategy0 : String} {x : Hit}
    (h : x ∈ (ai_caseA catalog cosB cosC target_gender limit search_path
      bert_vec clip_vec strategy0).1) :
    genderCond target_gender x.prod = true := by
  simp only [ai_caseA] at h
  by_cases h0 : (search_path = "EXTERNAL" && validClip clip_vec) = true
  · rw [if_pos h0] at h
    by_cases h1 : (!(search_by_clip_vector catalog cosC (clip_vec.getD [])
        limit target_gender none none none none "full" none).isEmpty) = true
    · rw [if_pos h1] at h
      exact (search_by_clip_vector_mem h).2.2.2
    · rw [if_neg h1] at h
      by_cases h2 : validBert bert_vec = true
      · rw [if_pos h2] at h
        exact hybridCond_gender (search_hybrid_mem h).2
      · rw [if_neg h2] at h
        simp at h
  · rw [if_neg h0] at h
    simp at h

theorem ai_caseA_nodup (catalog : List Product)
    (cosB cosC : List ℚ → List ℚ → ℚ) (target_gender : Option String)
    (limit : Nat) (search_path : String) (bert_vec clip_vec : Option (List ℚ))
    (strategy0 : String) (hcat : IdsNodup catalog) :
    (((ai_caseA catalog cosB cosC target_gender limit search_path bert_vec
      clip_vec strategy0).1).map (fun h => h.prod.id)).Nodup := by
  simp only [ai_caseA]
  by_cases h0 : (search_path = "EXTERNAL" && validClip clip_vec) = true
  · rw [if_pos h0]
    by_cases h1 : (!(search_by_clip_vector catalog cosC (clip_vec.getD [])
        limit target_gender none none none none "full" none).isEmpty) = true
    · rw [if_pos h1]
      exact search_by_clip_vector_nodup _ _ _ _ _ _ _ _ _ _ _ hcat
    · rw [if_neg h1]
      by_cases h2 : validBert bert_vec = true
      · rw [if_pos h2]
        exact search_hybrid_nodup _ _ _ _ _ _ _ _ _ _ _ hcat
      · rw [if_neg h2]; simp
  · rw [if_neg h0]; simp

theorem ai_caseB_gender {catalog : List Product}
    {cosB : List ℚ → List ℚ → ℚ} {query core_keyword : String}
    {bert_vec clip_vec : Option (List ℚ)} {limit : Nat}
    {target_gender : Option String} {stepA : List Hit × String} {x : Hit}
    (hA : ∀ y : Hit, y ∈ stepA.1 → genderCond target_gender y.prod = true)
    (hgf : (ai_caseB catalog cosB query core_keyword bert_vec clip_vec limit
      target_gender stepA).2.2 = true)
    (h : x ∈ (ai_caseB catalog cosB query core_keyword bert_vec clip_vec
      limit target_gender stepA).1) :
    genderCond target_gender x.prod = true := by
  simp only [ai_caseB] at hgf h
  by_cases h0 : stepA.1.isEmpty = true
  · rw [if_pos h0] at hgf h
    by_cases h1 : (search_smart_hybrid catalog cosB core_keyword bert_vec
        clip_vec limit target_gender).isEmpty = true
    · rw [if_pos h1] at hgf h
      by_cases h2 : (!(search_smart_hybrid catalog cosB query bert_vec
          clip_vec limit none).isEmpty) = true
      · rw [if_pos h2] at hgf
        simp at hgf
      · rw [if_neg h2] at h
        simp at h
    · rw [if_neg h1] at h
      have h' : x ∈ search_smart_hybrid catalog cosB core_keyword bert_vec
          clip_vec limit target_gender := h
      have hb := (search_smart_hybrid_mem h').2
      simp only [baseCond, Bool.and_eq_true] at hb
      exact hb.2
  · rw [if_neg h0] at h
    exact hA x h

theorem ai_caseB_nodup (catalog : List Product)
    (cosB : List ℚ → List ℚ → ℚ) (query core_keyword : String)
    (bert_vec clip_vec : Option (List ℚ)) (limit : Nat)
    (target_gender : Option String) (stepA : List Hit × String)
    (hA : (stepA.1.map (fun h => h.prod.id)).Nodup) :
    (((ai_caseB catalog cosB query core_keyword bert_vec clip_vec limit
      target_gender stepA).1).map (fun h => h.prod.id)).Nodup := by
  simp only [ai_caseB]
  by_cases h0 : stepA.1.isEmpty = true
  · rw [if_pos h0]
    by_cases h1 : (search_smart_hybrid catalog cosB core_keyword bert_vec
        clip_vec limit target_gender).isEmpty = true
    · rw [if_pos h1]
      by_cases h2 : (!(search_smart_hybrid catalog cosB query bert_vec
          clip_vec limit none).isEmpty) = true
      · rw [if_pos h2]
        exact search_smart_hybrid_nodup catalog cosB query bert_vec clip_vec
          limit none
      · rw [if_neg h2]; simp
    · rw [if_neg h1]
      exact search_smart_hybrid_nodup catalog cosB core_keyword bert_vec
        clip_vec limit target_gender
  · rw [if_neg h0]
    exact hA

theorem ai_caseC_gf {catalog : List Product} {limit : Nat}
    {stepB : List Hit × String × Bool}
    (hgf : (ai_caseC catalog limit stepB).2.2 = true) :
    (ai_caseC catalog limit stepB).1 = stepB.1 ∧ stepB.2.2 = true := by
  simp only [ai_caseC] at hgf ⊢
  by_cases h0 : stepB.1.isEmpty = true
  · rw [if_pos h0] at hgf
    simp at hgf
  · rw [if_neg h0] at hgf ⊢
    exact ⟨rfl, hgf⟩

theorem ai_caseC_nodup (catalog : List Product) (limit : Nat)
    (stepB : List Hit × String × Bool) (hcat : IdsNodup catalog)
    (hB : (stepB.1.map (fun h => h.prod.id)).Nodup) :
    (((ai_caseC catalog limit stepB).1).map (fun h => h.prod.id)).Nodup := by
  simp only [ai_caseC]
  by_cases h0 : stepB.1.isEmpty = true
  · rw [if_pos h0]
    rw [List.map_map]
    exact List.pairwise_map.mpr (get_multi_pairwise hcat)
  · rw [if_neg h0]
    exact hB

theorem string_data_eq_nil_iff (s : String) : s.data = [] ↔ s = "" := by
  cases s with
  | mk l =>
    constructor
    · intro h
      show String.mk l = ""
      rw [show l = [] from h]
    · intro h
      exact congrArg String.data h

/-- The greedy return of `search_smart_hybrid`: a nonempty keyword step is
returned as-is, no vector fallback blended in. -/
theorem smart_hybrid_of_keyword_nonempty {catalog : List Product}
    {cosB : List ℚ → List ℚ → ℚ} {query : String}
    {bert clip : Option (List ℚ)} {limit : Nat} {fg : Option String}
    (h : (keyword_step catalog cosB query bert (baseCond fg) limit).1 ≠ []) :
    search_smart_hybrid catalog cosB query bert clip limit fg =
      (keyword_step catalog cosB query bert (baseCond fg) limit).1 := by
  simp only [search_smart_hybrid]
  rw [if_pos]
  simp only [Bool.not_eq_true', List.isEmpty_eq_false_iff_exists_mem]
  exact List.exists_mem_of_ne_nil _ h

/-- With a healthy database, `ai_search` always answers `Except.ok` with
the record assembled from the three cases. -/
theorem ai_search_ok (catalog : List Product)
    (cosB cosC : List ℚ → List ℚ → ℚ) (query : String) (limit : Nat)
    (ai : Nat → Option AIResult) :
    ai_search catalog cosB cosC query limit ai true = Except.ok
      { status := "SUCCESS"
        search_path := (ai_caseC catalog limit
          (ai_caseB catalog cosB query (extract_core_keyword query)
            ((retryLoop ai).1.bind (fun r => r.bert))
            ((retryLoop ai).1.bind (fun r => r.clip))
            limit (detect_gender_intent query)
            (ai_caseA catalog cosB cosC (detect_gender_intent query) limit
              (ai_path (retryLoop ai).1)
              ((retryLoop ai).1.bind (fun r => r.bert))
              ((retryLoop ai).1.bind (fun r => r.clip))
              (ai_strategy0 (retryLoop ai).1)))).2.1
        gender_filter_applied := (ai_caseC catalog limit
          (ai_caseB catalog cosB query (extract_core_keyword query)
            ((retryLoop ai).1.bind (fun r => r.bert))
            ((retryLoop ai).1.bind (fun r => r.clip))
            limit (detect_gender_intent query)
            (ai_caseA catalog cosB cosC (detect_gender_intent query) limit
              (ai_path (retryLoop ai).1)
              ((retryLoop ai).1.bind (fun r => r.bert))
              ((retryLoop ai).1.bind (fun r => r.clip))
              (ai_strategy0 (retryLoop ai).1)))).2.2
        detected_gender := detect_gender_intent query
        products := (ai_caseC catalog limit
          (ai_caseB catalog cosB query (extract_core_keyword query)
            ((retryLoop ai).1.bind (fun r => r.bert))
            ((retryLoop ai).1.bind (fun r => r.clip))
            limit (detect_gender_intent query)
            (ai_caseA catalog cosB cosC (detect_gender_intent query) limit
              (ai_path (retryLoop ai).1)
              ((retryLoop ai).1.bind (fun r => r.bert))
              ((retryLoop ai).1.bind (fun r => r.clip))
              (ai_strategy0 (retryLoop ai).1)))).1 } := rfl

theorem ai_search_db_error (catalog : List Product)
    (cosB cosC : List ℚ → List ℚ → ℚ) (query : String) (limit : Nat)
    (ai : Nat → Option AIResult) :
    ai_search catalog cosB cosC query limit ai false =
      Except.error "Database Search Failed" := rfl

/-! Claim theorems. -/

/-- C2 (counterexample): the query "women" contains the female keyword
"women", yet `detect_gender_intent` classifies it as Male, because the
male keyword list is checked first and "men" is a substring of "women";
likewise "female" contains "male".  The claim that a query containing a
female keyword yields Female is therefore false. -/
theorem C2_counterexample :
    ilikeContains (lowerStr "women") "women" = true ∧
    detect_gender_intent "women" ≠ some "Female" ∧
    detect_gender_intent "women" = some "Male" ∧
    detect_gender_intent "female dress" = some "Male" := by
  refine ⟨by decide, by decide, by decide, by decide⟩

/-- C2 (amended): gender detection is a case-insensitive substring match
with the male keyword list checked first: any male-keyword substring
(including "men" inside "women" and "male" inside "female") yields Male;
otherwise a female-keyword substring yields Female; otherwise None. -/
theorem C2_gender_detection_amended (q : String) :
    (maleKeywords.any (fun x => ilikeContains (lowerStr q) x) = true →
      detect_gender_intent q = some "Male") ∧
    (maleKeywords.any (fun x => ilikeContains (lowerStr q) x) = false →
      femaleKeywords.any (fun x => ilikeContains (lowerStr q) x) = true →
      detect_gender_intent q = some "Female") ∧
    (maleKeywords.any (fun x => ilikeContains (lowerStr q) x) = false →
      femaleKeywords.any (fun x => ilikeContains (lowerStr q) x) = false →
      detect_gender_intent q = none) := by
  by_cases h0 : q = ""
  · subst h0
    refine ⟨fun h => absurd h (by decide), fun _ h2 => absurd h2 (by decide),
      fun _ _ => by decide⟩
  · simp only [detect_gender_intent, if_neg h0]
    refine ⟨fun h => ?_, fun h1 h2 => ?_, fun h1 h2 => ?_⟩
    · rw [if_pos h]
    · rw [if_neg (by simp [h1]), if_pos h2]
    · rw [if_neg (by simp [h1]), if_neg (by simp [h2])]

/-- C2 (witness): concrete male query. -/
theorem C2_gender_detection_amended_witness :
    detect_gender_intent "men shoes" = some "Male" :=
  (C2_gender_detection_amended "men shoes").1 (by decide)

/-- C5 (counterexample): the attached similarity is not exactly
`clamp(1 - d, 0, 1)`: the code rounds to 4 decimal places
(`round(similarity, 4)`), so at distance 3/100000 the stored score is 1
while the clamp value is 0.99997. -/
theorem C5_counterexample :
    distance_to_similarity (3 / 100000) = 1 ∧
    distance_to_similarity (3 / 100000) ≠ max 0 (min 1 (1 - 3 / 100000)) := by
  constructor
  · norm_num [distance_to_similarity, round4, round_eq]
  · norm_num [distance_to_similarity, round4, round_eq]

/-- C5 (amended): the attached similarity equals `clamp(1 - d, 0, 1)`
rounded to 4 decimal places; it always lies in [0, 1] and is monotone in
the distance (d1 ≤ d2 implies score(d1) ≥ score(d2)). -/
theorem C5_similarity_amended (d d1 d2 : ℚ) :
    distance_to_similarity d = round4 (max 0 (min 1 (1 - d))) ∧
    0 ≤ distance_to_similarity d ∧ distance_to_similarity d ≤ 1 ∧
    (d1 ≤ d2 → distance_to_similarity d2 ≤ distance_to_similarity d1) := by
  have hmono : ∀ x y : ℚ, x ≤ y → round4 x ≤ round4 y := by
    intro x y hxy
    simp only [round4, round_eq]
    have hf : (⌊x * 10000 + 1 / 2⌋ : ℤ) ≤ ⌊y * 10000 + 1 / 2⌋ :=
      Int.floor_mono (by linarith)
    have : ((⌊x * 10000 + 1 / 2⌋ : ℤ) : ℚ) ≤ ((⌊y * 10000 + 1 / 2⌋ : ℤ) : ℚ) :=
      Int.cast_le.mpr hf
    linarith
  have hclamp : ∀ e : ℚ, 0 ≤ max 0 (min 1 (1 - e)) ∧ max 0 (min 1 (1 - e)) ≤ 1 := by
    intro e
    constructor
    · exact le_max_left 0 _
    · rcases le_total (min 1 (1 - e)) 0 with h | h
      · rw [max_eq_left h]; norm_num
      · rw [max_eq_right h]; exact min_le_left 1 _
  have h0 : round4 0 = 0 := by norm_num [round4, round_eq]
  have h1 : round4 1 = 1 := by norm_num [round4, round_eq]
  refine ⟨rfl, ?_, ?_, ?_⟩
  · have := hmono 0 (max 0 (min 1 (1 - d))) (hclamp d).1
    rw [h0] at this
    exact this
  · have := hmono (max 0 (min 1 (1 - d))) 1 (hclamp d).2
    rw [h1] at this
    exact this
  · intro h12
    apply hmono
    have : min 1 (1 - d2) ≤ min 1 (1 - d1) :=
      min_le_min le_rfl (by linarith)
    exact max_le_max le_rfl this

/-- C5 (witness): concrete instantiation of the amended claim. -/
theorem C5_similarity_amended_witness :
    distance_to_similarity (3 / 2) ≤ distance_to_similarity (1 / 2) :=
  (C5_similarity_amended 0 (1 / 2) (3 / 2)).2.2.2 (by norm_num)

/-- C6: a missing or empty vector is stored as the all-zero vector of the
declared dimensionality; a short vector is padded with trailing zeros to
exactly the declared length; a long one is truncated; `create` applies
this with 768 for the text embedding and 512 for the three CLIP
embeddings, so a provided vector is never stored at the wrong length. -/
theorem C6_vector_repair (c : CreatePayload) (v : Option (List ℚ))
    (vec : List ℚ) (dim : Nat) :
    ((validate_vector v dim).length = dim) ∧
    (v = none ∨ v = some [] → validate_vector v dim = List.replicate dim 0) ∧
    (v = some vec → vec.length < dim →
      validate_vector v dim = vec ++ List.replicate (dim - vec.length) 0) ∧
    (v = some vec → dim < vec.length → validate_vector v dim = vec.take dim) ∧
    (∀ w, c.embedding = some w →
      (create_normalize c).embedding = some (some (validate_vector w 768))) ∧
    (∀ w, c.embedding_clip = some w →
      (create_normalize c).embedding_clip = some (some (validate_vector w 512))) ∧
    (∀ w, c.embedding_clip_upper = some w →
      (create_normalize c).embedding_clip_upper =
        some (some (validate_vector w 512))) ∧
    (∀ w, c.embedding_clip_lower = some w →
      (create_normalize c).embedding_clip_lower =
        some (some (validate_vector w 512))) := by
  refine ⟨?_, ?_, ?_, ?_, ?_, ?_, ?_, ?_⟩
  · match v with
    | none => simp [validate_vector]
    | some l =>
      simp only [validate_vector]
      by_cases he : l.isEmpty
      · rw [if_pos he]; simp
      · rw [if_neg he]
        by_cases hd : l.length ≠ dim
        · rw [if_pos hd]
          by_cases hlt : l.length < dim
          · rw [if_pos hlt]; simp; omega
          · rw [if_neg hlt]
            simp only [List.length_take]
            omega
        · rw [if_neg hd]; omega
  · rintro (rfl | rfl) <;> simp [validate_vector]
  · rintro rfl hlt
    simp only [validate_vector]
    by_cases he : vec.isEmpty
    · rw [if_pos he]
      rw [List.isEmpty_iff] at he
      subst he
      simp
    · rw [if_neg he, if_pos (by omega), if_pos hlt]
  · rintro rfl hgt
    simp only [validate_vector]
    rw [if_neg (by rw [List.isEmpty_iff]; intro h; subst h; simp at hgt),
      if_pos (by omega), if_neg (by omega)]
  · intro w hw; simp [create_normalize, hw]
  · intro w hw; simp [create_normalize, hw]
  · intro w hw; simp [create_normalize, hw]
  · intro w hw; simp [create_normalize, hw]

/-- C6 (witness): a 1-element vector stored with target dimensionality 3
comes out as [5, 0, 0], and `create` normalizes a provided text embedding
to 768 entries. -/
theorem C6_vector_repair_witness :
    validate_vector (some [(5 : ℚ)]) 3 =
      [(5 : ℚ)] ++ List.replicate (3 - [(5 : ℚ)].length) 0 ∧
    (create_normalize C6payload).embedding =
      some (some (validate_vector (some [(5 : ℚ)]) 768)) :=
  ⟨(C6_vector_repair C6payload (some [(5 : ℚ)]) [(5 : ℚ)] 3).2.2.1 rfl
    (by decide),
   (C6_vector_repair C6payload (some [(5 : ℚ)]) [(5 : ℚ)] 3).2.2.2.2.1
    (some [(5 : ℚ)]) rfl⟩

/-- C10: in the vector-search query builders a `min_price` or `max_price`
of 0 is falsy in Python and imposes no price condition at all: the query
with the bound set to 0 coincides with the query with no bound, for both
`search_by_clip_vector` and `search_hybrid`. -/
theorem C10_zero_price_no_constraint (catalog : List Product)
    (cosB cosC : List ℚ → List ℚ → ℚ) (clip_vector : List ℚ)
    (bert_vector clip_opt : Option (List ℚ)) (limit : Nat)
    (filter_gender : Option String) (exclude_category : Option (List String))
    (exclude_id : Option (List Nat)) (m : Option Int) (target : String)
    (include_category : Option (List String)) :
    search_by_clip_vector catalog cosC clip_vector limit filter_gender
        exclude_category exclude_id (some 0) m target include_category =
      search_by_clip_vector catalog cosC clip_vector limit filter_gender
        exclude_category exclude_id none m target include_category ∧
    search_by_clip_vector catalog cosC clip_vector limit filter_gender
        exclude_category exclude_id m (some 0) target include_category =
      search_by_clip_vector catalog cosC clip_vector limit filter_gender
        exclude_category exclude_id m none target include_category ∧
    search_hybrid catalog cosB cosC bert_vector clip_opt limit filter_gender
        (some 0) m exclude_category exclude_id =
      search_hybrid catalog cosB cosC bert_vector clip_opt limit
        filter_gender none m exclude_category exclude_id ∧
    search_hybrid catalog cosB cosC bert_vector clip_opt limit filter_gender
        m (some 0) exclude_category exclude_id =
      search_hybrid catalog cosB cosC bert_vector clip_opt limit
        filter_gender m none exclude_category exclude_id := by
  have hmin : minPriceCond (some 0) = minPriceCond none := by
    funext p; simp [minPriceCond]
  have hmax : maxPriceCond (some 0) = maxPriceCond none := by
    funext p; simp [maxPriceCond]
  have hhc1 : hybridCond filter_gender (some 0) m exclude_category
      exclude_id = hybridCond filter_gender none m exclude_category
      exclude_id := by
    funext p; simp [hybridCond, minPriceCond]
  have hhc2 : hybridCond filter_gender m (some 0) exclude_category
      exclude_id = hybridCond filter_gender m none exclude_category
      exclude_id := by
    funext p; simp [hybridCond, maxPriceCond]
  refine ⟨?_, ?_, ?_, ?_⟩
  · simp only [search_by_clip_vector, hmin]
  · simp only [search_by_clip_vector, hmax]
  · simp only [search_hybrid, hhc1]
  · simp only [search_hybrid, hhc2]

/-- C3 (counterexample): for the query "블랙 팬츠"-catalog and "블랙 후드",
the keyword step returns both the product matching only the candidate
"블랙" and the product matching only the candidate "후드": the loop does
not stop at the first productive candidate, so the returned set mixes
matches of two different keyword candidates. -/
theorem C3_counterexample :
    extract_keywords "블랙 후드" = ["블랙후드", "블랙", "후드"] ∧
    (search_smart_hybrid [C3blackPants, C3hoodTee] cos0 "블랙 후드" none none
      12 none).map (fun h => h.prod.id) = [1, 2] ∧
    kwMatch C3blackPants "블랙" = true ∧ kwMatch C3blackPants "후드" = false ∧
    kwMatch C3blackPants "블랙후드" = false ∧
    kwMatch C3hoodTee "후드" = true ∧ kwMatch C3hoodTee "블랙" = false ∧
    kwMatch C3hoodTee "블랙후드" = false := by
  refine ⟨by decide, by rfl, by decide, by decide, by decide, by decide,
    by decide, by decide⟩

/-- C3 (amended): the keyword loop iterates over ALL keyword candidates in
priority order (the whitespace-stripped full query first), accumulating
deduplicated matches across every candidate; what it does guarantee is
that each returned hit matches at least one candidate and that a nonempty
keyword result is returned as-is, never mixed with the vector tier. -/
theorem C3_keyword_accumulation_amended (catalog : List Product)
    (cosB : List ℚ → List ℚ → ℚ) (query : String)
    (bert clip : Option (List ℚ)) (limit : Nat) (fg : Option String) :
    (∀ x ∈ (keyword_step catalog cosB query bert (baseCond fg) limit).1,
      ∃ kw ∈ extract_keywords query, kwMatch x.prod kw = true) ∧
    (replaceRemove query " " ≠ "" →
      (extract_keywords query).head? = some (replaceRemove query " ")) ∧
    ((keyword_step catalog cosB query bert (baseCond fg) limit).1 ≠ [] →
      search_smart_hybrid catalog cosB query bert clip limit fg =
        (keyword_step catalog cosB query bert (baseCond fg) limit).1) := by
  refine ⟨?_, ?_, fun h => smart_hybrid_of_keyword_nonempty h⟩
  · intro x hx
    exact (keyword_step_mem hx).2.2
  · intro h
    simp only [extract_keywords]
    rw [if_pos]
    · rfl
    · have h1 : (replaceRemove query " ").data ≠ [] :=
        fun hd => h ((string_data_eq_nil_iff _).mp hd)
      have h2 : (replaceRemove query " ").data.length ≠ 0 :=
        fun h0 => h1 (List.length_eq_zero.mp h0)
      omega

/-- C3 (witness): on a singleton catalog the keyword step is nonempty and
the smart hybrid returns exactly it. -/
theorem C3_keyword_accumulation_amended_witness :
    search_smart_hybrid [C3shirt] cos0 "셔츠" none none 12 none =
      (keyword_step [C3shirt] cos0 "셔츠" none (baseCond none) 12).1 :=
  (C3_keyword_accumulation_amended [C3shirt] cos0 "셔츠" none none 12
    none).2.2 (by decide)

/-- C4 (code bug): the final fallback (`get_multi`, reached as Case C of
`ai_search`) has no `is_active` filter and no `ORDER BY`: a catalog whose
only product is inactive is still returned by the fallback (with the
FALLBACK_LATEST label), and two active products are returned in table
order, oldest first, not creation-time descending. -/
theorem C4_fallback_code_bug :
    C4inactive.is_active = false ∧
    (ai_search [C4inactive] cos0 cos0 "zzz" 12 (fun _ => none) true).toOption.map
      (fun r => (r.products.map (fun h => h.prod.id),
        r.search_path)) = some ([9], "FALLBACK_LATEST") ∧
    C4old.created_at < C4new.created_at ∧
    get_multi [C4old, C4new] 0 100 = [C4old, C4new] := by
  refine ⟨by decide, by rfl, by decide, by rfl⟩

/-- C1 (counterexample): on the EXTERNAL path with a valid 512-dim visual
vector, `ai_search` runs the CLIP visual tier FIRST and returns its
result even though the keyword-exact tier (evaluated on the same request
data) is nonempty: keyword-exact is not attempted first and its result is
not returned. -/
theorem C1_counterexample :
    (ai_search [C1clip, C1kw] cos0 cos0 "셔츠" 12 C1ai true).toOption.map
      (fun r => (r.products.map (fun h => h.prod.id), r.search_path)) =
      some ([1], "CLIP_VISUAL_SEARCH") ∧
    (keyword_step [C1clip, C1kw] cos0 (extract_core_keyword "셔츠") none
      (baseCond (detect_gender_intent "셔츠")) 12).1.map
      (fun h => h.prod.id) = [2] := by
  exact ⟨by rfl, by rfl⟩

/-- C1 (amended): the tiers run in the order visual-vector (external path
only), keyword-exact, text-vector, relaxed retry, final fallback.  For
every request that is NOT on the external path with a valid 512-dim
visual vector, the keyword-exact tier is attempted first, and whenever it
yields at least one result that result set is returned as-is, with no
later tier attempted and no blending. -/
theorem C1_keyword_first_amended (catalog : List Product)
    (cosB cosC : List ℚ → List ℚ → ℚ) (query : String) (limit : Nat)
    (ai : Nat → Option AIResult) (resp : SearchResponse)
    (hne : (decide (ai_path (retryLoop ai).1 = "EXTERNAL") &&
      validClip ((retryLoop ai).1.bind (fun r => r.clip))) = false)
    (hkw : (keyword_step catalog cosB (extract_core_keyword query)
      ((retryLoop ai).1.bind (fun r => r.bert))
      (baseCond (detect_gender_intent query)) limit).1 ≠ [])
    (hok : ai_search catalog cosB cosC query limit ai true = Except.ok resp) :
    resp.products = (keyword_step catalog cosB (extract_core_keyword query)
      ((retryLoop ai).1.bind (fun r => r.bert))
      (baseCond (detect_gender_intent query)) limit).1 := by
  rw [ai_search_ok] at hok
  have hresp := Except.ok.inj hok
  have hA : ai_caseA catalog cosB cosC (detect_gender_intent query) limit
      (ai_path (retryLoop ai).1) ((retryLoop ai).1.bind (fun r => r.bert))
      ((retryLoop ai).1.bind (fun r => r.clip))
      (ai_strategy0 (retryLoop ai).1) =
      ([], ai_strategy0 (retryLoop ai).1) := by
    simp only [ai_caseA]
    rw [if_neg]
    simp [hne]
  have hsm : search_smart_hybrid catalog cosB (extract_core_keyword query)
      ((retryLoop ai).1.bind (fun r => r.bert))
      ((retryLoop ai).1.bind (fun r => r.clip)) limit
      (detect_gender_intent query) =
      (keyword_step catalog cosB (extract_core_keyword query)
        ((retryLoop ai).1.bind (fun r => r.bert))
        (baseCond (detect_gender_intent query)) limit).1 :=
    smart_hybrid_of_keyword_nonempty hkw
  have hB : ai_caseB catalog cosB query (extract_core_keyword query)
      ((retryLoop ai).1.bind (fun r => r.bert))
      ((retryLoop ai).1.bind (fun r => r.clip)) limit
      (detect_gender_intent query)
      ([], ai_strategy0 (retryLoop ai).1) =
      ((keyword_step catalog cosB (extract_core_keyword query)
        ((retryLoop ai).1.bind (fun r => r.bert))
        (baseCond (detect_gender_intent query)) limit).1,
       ai_strategy0 (retryLoop ai).1, true) := by
    simp only [ai_caseB]
    rw [if_pos (show (([] : List Hit),
      ai_strategy0 (retryLoop ai).1).1.isEmpty = true from rfl)]
    rw [hsm, if_neg (by simp only [List.isEmpty_iff]; exact hkw)]
  rw [← hresp]
  show (ai_caseC catalog limit _).1 = _
  rw [hA, hB]
  simp only [ai_caseC]
  rw [if_neg (by simp only [List.isEmpty_iff]; exact hkw)]

/-- C1 (witness): concrete internal-path request whose keyword tier is
nonempty; the response products are exactly the keyword-step results. -/
theorem C1_keyword_first_amended_witness :
    ({ status := "SUCCESS"
       search_path := "KEYWORD_FALLBACK"
       gender_filter_applied := true
       detected_gender := none
       products := [{ prod := C1kw, similarity := none }] } :
      SearchResponse).products =
      (keyword_step [C1kw] cos0 (extract_core_keyword "셔츠") none
        (baseCond (detect_gender_intent "셔츠")) 12).1 :=
  C1_keyword_first_amended [C1kw] cos0 cos0 "셔츠" 12 (fun _ => none) _
    (by decide) (by decide) (by rfl)

/-- C7: whenever the response reports `gender_filter_applied = true` and a
detected gender G, every returned candidate's gender is G, Unisex, or
null (the filter is never exact-match-only); with no gender filter the
gender condition imposes no constraint at all. -/
theorem C7_gender_filter (catalog : List Product)
    (cosB cosC : List ℚ → List ℚ → ℚ) (query : String) (limit : Nat)
    (ai : Nat → Option AIResult) (dbOk : Bool) (resp : SearchResponse)
    (g : String) (x : Hit)
    (hok : ai_search catalog cosB cosC query limit ai dbOk = Except.ok resp) :
    (resp.gender_filter_applied = true → resp.detected_gender = some g →
      x ∈ resp.products →
      x.prod.gender = some g ∨ x.prod.gender = some "Unisex" ∨
        x.prod.gender = none) ∧
    (∀ p : Product, genderCond none p = true) := by
  refine ⟨?_, fun p => rfl⟩
  intro hgf hdg hx
  match dbOk with
  | false =>
    rw [ai_search_db_error] at hok
    exact absurd hok (by simp)
  | true =>
    rw [ai_search_ok] at hok
    have hresp := Except.ok.inj hok
    rw [← hresp] at hgf hdg hx
    have hgf' : (ai_caseC catalog limit
        (ai_caseB catalog cosB query (extract_core_keyword query)
          ((retryLoop ai).1.bind (fun r => r.bert))
          ((retryLoop ai).1.bind (fun r => r.clip))
          limit (detect_gender_intent query)
          (ai_caseA catalog cosB cosC (detect_gender_intent query) limit
            (ai_path (retryLoop ai).1)
            ((retryLoop ai).1.bind (fun r => r.bert))
            ((retryLoop ai).1.bind (fun r => r.clip))
            (ai_strategy0 (retryLoop ai).1)))).2.2 = true := hgf
    have hdg' : detect_gender_intent query = some g := hdg
    obtain ⟨hCeq, hBgf⟩ := ai_caseC_gf hgf'
    have hx' : x ∈ (ai_caseB catalog cosB query (extract_core_keyword query)
        ((retryLoop ai).1.bind (fun r => r.bert))
        ((retryLoop ai).1.bind (fun r => r.clip))
        limit (detect_gender_intent query)
        (ai_caseA catalog cosB cosC (detect_gender_intent query) limit
          (ai_path (retryLoop ai).1)
          ((retryLoop ai).1.bind (fun r => r.bert))
          ((retryLoop ai).1.bind (fun r => r.clip))
          (ai_strategy0 (retryLoop ai).1))).1 := by
      have hx0 : x ∈ (ai_caseC catalog limit
        (ai_caseB catalog cosB query (extract_core_keyword query)
          ((retryLoop ai).1.bind (fun r => r.bert))
          ((retryLoop ai).1.bind (fun r => r.clip))
          limit (detect_gender_intent query)
          (ai_caseA catalog cosB cosC (detect_gender_intent query) limit
            (ai_path (retryLoop ai).1)
            ((retryLoop ai).1.bind (fun r => r.bert))
            ((retryLoop ai).1.bind (fun r => r.clip))
            (ai_strategy0 (retryLoop ai).1)))).1 := hx
      rw [hCeq] at hx0
      exact hx0
    have hgc : genderCond (detect_gender_intent query) x.prod = true :=
      ai_caseB_gender (fun y hy => ai_caseA_gender hy) hBgf hx'
    rw [hdg'] at hgc
    have hgval : g = "Male" ∨ g = "Female" := by
      rcases detect_gender_intent_cases query with h | h | h
      · rw [h] at hdg'; exact absurd hdg' (by simp)
      · rw [h] at hdg'
        exact Or.inl (Option.some.inj hdg').symm
      · rw [h] at hdg'
        exact Or.inr (Option.some.inj hdg').symm
    have hgne : g ≠ "" := by
      rcases hgval with rfl | rfl <;> decide
    exact genderCond_mem hgne hgc

/-- C7 (witness): query "남자 셔츠" filters to Male; the returned male
product's gender is in the allowed set. -/
theorem C7_gender_filter_witness :
    C7male.gender = some "Male" ∨ C7male.gender = some "Unisex" ∨
      C7male.gender = none :=
  (C7_gender_filter [C7male, C7female] cos0 cos0 "남자 셔츠" 12
    (fun _ => none) true
    { status := "SUCCESS"
      search_path := "KEYWORD_FALLBACK"
      gender_filter_applied := true
      detected_gender := some "Male"
      products := [{ prod := C7male, similarity := none }] }
    "Male" { prod := C7male, similarity := none } (by rfl)).1 rfl rfl
    (List.mem_singleton.mpr rfl)

/-- C8: when the catalog's product ids are pairwise distinct (the
primary-key invariant), the candidate list returned by a successful
`ai_search` request contains no duplicate product ids, whichever tier
produced it. -/
theorem C8_no_duplicate_ids (catalog : List Product)
    (cosB cosC : List ℚ → List ℚ → ℚ) (query : String) (limit : Nat)
    (ai : Nat → Option AIResult) (dbOk : Bool) (resp : SearchResponse)
    (hcat : IdsNodup catalog)
    (hok : ai_search catalog cosB cosC query limit ai dbOk = Except.ok resp) :
    (resp.products.map (fun h => h.prod.id)).Nodup := by
  match dbOk with
  | false =>
    rw [ai_search_db_error] at hok
    exact absurd hok (by simp)
  | true =>
    rw [ai_search_ok] at hok
    have hresp := Except.ok.inj hok
    rw [← hresp]
    exact ai_caseC_nodup _ _ _ hcat
      (ai_caseB_nodup _ _ _ _ _ _ _ _ _
        (ai_caseA_nodup _ _ _ _ _ _ _ _ _ hcat))

/-- C8 (witness): two distinct products both matching the query come back
with distinct ids. -/
theorem C8_no_duplicate_ids_witness :
    (([{ prod := C8a, similarity := none },
       { prod := C8b, similarity := none }] : List Hit).map
      (fun h => h.prod.id)).Nodup :=
  C8_no_duplicate_ids [C8a, C8b] cos0 cos0 "셔츠" 12 (fun _ => none) true
    { status := "SUCCESS"
      search_path := "KEYWORD_FALLBACK"
      gender_filter_applied := true
      detected_gender := none
      products := [{ prod := C8a, similarity := none },
                   { prod := C8b, similarity := none }] }
    (by unfold IdsNodup; simp [C8a, C8b, baseProduct]) (by rfl)

/-- C9: the AI-service round trip is attempted at most 3 times; when all
three attempts fail the request still succeeds through the database tiers
(with one of the fallback strategy labels), and only a database failure
surfaces as a request error. -/
theorem C9_ai_failure_absorbed (catalog : List Product)
    (cosB cosC : List ℚ → List ℚ → ℚ) (query : String) (limit : Nat)
    (ai : Nat → Option AIResult) :
    ((retryLoop ai).2 ≤ 3) ∧
    (ai 0 = none → ai 1 = none → ai 2 = none →
      ∃ resp : SearchResponse,
        ai_search catalog cosB cosC query limit ai true = Except.ok resp ∧
        resp.status = "SUCCESS" ∧
        (resp.search_path = "KEYWORD_FALLBACK" ∨
         resp.search_path = "RELAXED_SEARCH" ∨
         resp.search_path = "FALLBACK_LATEST")) ∧
    (ai_search catalog cosB cosC query limit ai false =
      Except.error "Database Search Failed") := by
  refine ⟨?_, ?_, ai_search_db_error _ _ _ _ _ _⟩
  · simp only [retryLoop]
    cases ai 0 <;> cases ai 1 <;> cases ai 2 <;> simp
  · intro h0 h1 h2
    have hrt : retryLoop ai = (none, 3) := by
      simp only [retryLoop, h0, h1, h2]
    refine ⟨_, ai_search_ok catalog cosB cosC query limit ai, rfl, ?_⟩
    have hb : ((retryLoop ai).1.bind (fun r => r.bert)) =
        (none : Option (List ℚ)) := by rw [hrt]; rfl
    have hc : ((retryLoop ai).1.bind (fun r => r.clip)) =
        (none : Option (List ℚ)) := by rw [hrt]; rfl
    have hp : ai_path (retryLoop ai).1 = "INTERNAL" := by rw [hrt]; rfl
    have hs : ai_strategy0 (retryLoop ai).1 = "KEYWORD_FALLBACK" := by
      rw [hrt]; rfl
    have hA : ai_caseA catalog cosB cosC (detect_gender_intent query) limit
        "INTERNAL" none none "KEYWORD_FALLBACK" =
        ([], "KEYWORD_FALLBACK") := by
      simp only [ai_caseA]
      rw [if_neg (by decide)]
    dsimp only
    rw [hb, hc, hp, hs, hA]
    simp only [ai_caseB]
    rw [if_pos (show (([] : List Hit), "KEYWORD_FALLBACK").1.isEmpty = true
      from rfl)]
    by_cases hSe : (search_smart_hybrid catalog cosB
        (extract_core_keyword query) none none limit
        (detect_gender_intent query)).isEmpty = true
    · rw [if_pos hSe]
      by_cases hRe : (!(search_smart_hybrid catalog cosB query none none
          limit none).isEmpty) = true
      · rw [if_pos hRe]
        simp only [ai_caseC]
        rw [if_neg (fun hcon => by
          rw [show ((search_smart_hybrid catalog cosB query none none limit
            none, "RELAXED_SEARCH", false) :
            List Hit × String × Bool).1.isEmpty =
            (search_smart_hybrid catalog cosB query none none limit
              none).isEmpty from rfl, hcon] at hRe
          exact absurd hRe (by decide))]
        exact Or.inr (Or.inl rfl)
      · rw [if_neg hRe]
        simp only [ai_caseC]
        rw [if_pos (show (([] : List Hit),
          (([] : List Hit), "KEYWORD_FALLBACK").2, true).1.isEmpty = true
          from rfl)]
        exact Or.inr (Or.inr rfl)
    · rw [if_neg hSe]
      simp only [ai_caseC]
      rw [if_neg (fun hcon => hSe hcon)]
      exact Or.inl rfl

/-- C9 (witness): with every AI attempt failing, a concrete request still
returns success with a fallback strategy label. -/
theorem C9_ai_failure_absorbed_witness :
    ∃ resp : SearchResponse,
      ai_search [C9prod] cos0 cos0 "zzzz" 12 (fun _ => none) true =
        Except.ok resp ∧ resp.status = "SUCCESS" ∧
      (resp.search_path = "KEYWORD_FALLBACK" ∨
       resp.search_path = "RELAXED_SEARCH" ∨
       resp.search_path = "FALLBACK_LATEST") :=
  (C9_ai_failure_absorbed [C9prod] cos0 cos0 "zzzz" 12 (fun _ => none)).2.1
    rfl rfl rfl

end SearchCore
